import Mathlib

/-!
Shallow embedding of the `golf_flip_app` listing pipeline: the valuation
engine (`valuation.py`), the SQLite seen-store (`seen_store.py`) and the
per-listing orchestration of `worker.run_once` (`worker.py`).

Modelling conventions:
* Python floats are modelled as exact rationals; `round(x, 2)` is
  modelled by `round2`, rounding half up.  No value in the verified
  claims lies at a rounding tie, so the half-even / half-up difference
  never matters for the statements proved here.
* A dict field that the code reads both with and without a default is
  `Option (Option _)` (absent / present-null / present-value); a field
  where the code treats absent and null alike is a single `Option`.
* Python exceptions are `Except PyError`; an uncaught exception
  propagates as `Except.error`.
* The compiled include / exclude regexes are abstracted as predicates
  on the title; regex-engine internals are not needed by any claim.
* `str.upper` / `str.lower` are embedded on their ASCII fragment, which
  covers every string the pipeline compares case-insensitively.
-/

namespace GolfFlips

/-- Two-decimal rounding, modelling Python `round(x, 2)` on exact
rationals. -/
def round2 (q : ℚ) : ℚ := ((q * 100 + 1/2).floor : ℚ) / 100

/-- ASCII fragment of `str.upper` on one character. -/
def py_upper_char (c : Char) : Char :=
  if 'a' ≤ c ∧ c ≤ 'z' then Char.ofNat (c.toNat - 32) else c

/-- ASCII fragment of `str.lower` on one character. -/
def py_lower_char (c : Char) : Char :=
  if 'A' ≤ c ∧ c ≤ 'Z' then Char.ofNat (c.toNat + 32) else c

/-- ASCII fragment of `str.upper`. -/
def py_upper (s : String) : String := ⟨s.data.map py_upper_char⟩

/-- ASCII fragment of `str.lower`. -/
def py_lower (s : String) : String := ⟨s.data.map py_lower_char⟩

/-- Exceptions the embedded code can raise: `TypeError` from
`float(None)`, `ValueError` from an unknown valuation strategy. -/
inductive PyError where
  | typeError
  | valueError (msg : String)
  deriving DecidableEq, Repr

/-- One simplified listing dict as produced by the fetchers
(`EbayFetcher._simplify_item`, `VintedFetcher._simplify_item`).
`price` distinguishes an absent key (`none`) from a present null
(`some none`): `compute_profit` treats them differently.
`listing_id` uses `""` for the falsy values (`None` or empty string)
that `run_once` discards.  `shipping_cost` is a single `Option`
because `lookup_shipping_cost` reads it with a plain `get`. -/
structure Listing where
  marketplace : String
  listing_id : String
  title : String
  brand : Option String
  model : Option String
  condition : Option String
  price : Option (Option ℚ)
  shipping_cost : Option ℚ

/-- The slice of `settings.Settings` the pipeline reads.
`shipping_table` models `SHIPPING_TABLE_JSON`: `none` = unset or empty,
`some none` = set but unparseable JSON, `some (some d)` = parses with
default entry `d` (a table without a default key yields `d = 0`,
matching `table.get` with default `0.0`).  `regex_include` and
`regex_exclude` are the compiled case-insensitive regex `search`
predicates on the title, `none` when the setting is unset. -/
structure Settings where
  PROFIT_MIN : ℚ
  MARGIN_MIN_PERCENT : ℚ
  VALUATION_STRATEGY : String
  shipping_table : Option (Option ℚ)
  regex_include : Option (String → Bool)
  regex_exclude : Option (String → Bool)

/-- `valuation.compute_buyer_protection_cost`: flat 5% fee on the
price, rounded to two decimals. -/
def compute_buyer_protection_cost (price : ℚ) : ℚ :=
  round2 (price * (5 / 100))

/-- `valuation.lookup_shipping_cost`: the listing's own declared
shipping cost if present, else the shipping table's default entry if
the table is configured and parses, else unresolved. -/
def lookup_shipping_cost (l : Listing) (s : Settings) : Option ℚ :=
  match l.shipping_cost with
  | some c => some (round2 c)
  | none =>
    match s.shipping_table with
    | some (some d) => some (round2 d)
    | _ => none

/-- The static strategy-B price table inside `estimate_resale_value`,
keyed by `lower(brand)|lower(model)`. -/
def static_prices (key : String) : Option ℚ :=
  if key = "cobra|king ltdx" then some 130
  else if key = "scotty cameron|phantom x" then some 240
  else none

/-- `valuation.estimate_resale_value`.  Absent or null price returns
`none` before the strategy is examined; strategies A and C multiply the
price by 1.5 and round; strategy B looks up the static table; any other
(uppercased) strategy raises `ValueError`. -/
def estimate_resale_value (l : Listing) (s : Settings) :
    Except PyError (Option ℚ) :=
  match l.price with
  | none => Except.ok none
  | some none => Except.ok none
  | some (some price) =>
    let strategy := py_upper s.VALUATION_STRATEGY
    if strategy = "A" then Except.ok (some (round2 (price * (3 / 2))))
    else if strategy = "B" then
      Except.ok (static_prices
        (py_lower (l.brand.getD "") ++ "|" ++ py_lower (l.model.getD "")))
    else if strategy = "C" then Except.ok (some (round2 (price * (3 / 2))))
    else Except.error (PyError.valueError
      ("Unknown valuation strategy: " ++ strategy))

/-- The 7-tuple returned by `valuation.compute_profit`. -/
structure CostBreakdown where
  product_cost : ℚ
  buyer_protection_cost : ℚ
  shipping_cost : ℚ
  total_cost : ℚ
  potential_resale_value : ℚ
  profit : ℚ
  margin_percent : ℚ
  deriving DecidableEq, Repr

/-- The part of `valuation.compute_profit` after its first line has
produced the raw price (0.0 for an absent key, the number otherwise):
cost accumulation, resale estimation, profit and margin. -/
def compute_profit_body (l : Listing) (s : Settings) (raw_price : ℚ) :
    Except PyError CostBreakdown :=
  let product_cost := round2 raw_price
  let bp := compute_buyer_protection_cost product_cost
  let sc := lookup_shipping_cost l s
  let total_cost :=
    match sc with
    | some c => product_cost + bp + c
    | none => product_cost + bp
  match estimate_resale_value l s with
  | Except.error e => Except.error e
  | Except.ok rv =>
    let profit : ℚ :=
      match rv with
      | none => 0
      | some v => round2 (v - total_cost)
    let margin_percent : ℚ :=
      match rv with
      | none => 0
      | some _ =>
        if total_cost ≠ 0 then round2 (profit / total_cost * 100) else 0
    Except.ok ⟨round2 product_cost, round2 bp,
      (match sc with | some c => round2 c | none => 0),
      round2 total_cost,
      (match rv with | some v => round2 v | none => 0),
      round2 profit, round2 margin_percent⟩

/-- `valuation.compute_profit`.  Its first source line,
`float(listing.get("price", 0.0))`, defaults only an ABSENT key to 0.0;
a present null reaches `float(None)` and raises `TypeError`. -/
def compute_profit (l : Listing) (s : Settings) :
    Except PyError CostBreakdown :=
  match l.price with
  | none => compute_profit_body l s 0
  | some none => Except.error PyError.typeError
  | some (some p) => compute_profit_body l s p

/-- `worker.condition_acceptable`: empty is unacceptable, otherwise the
lowercased condition must be one of the enumerated strings. -/
def condition_acceptable (condition : String) : Bool :=
  if condition = "" then false
  else ["new", "like new", "excellent", "very good", "good"].contains
    (py_lower condition)

/-- The include-regex step of `run_once` as a pass predicate: the
listing is skipped iff the regex is configured and finds no match. -/
def passes_include (s : Settings) (title : String) : Bool :=
  match s.regex_include with
  | some p => p title
  | none => true

/-- The exclude-regex step of `run_once` as a pass predicate: the
listing is skipped iff the regex is configured and finds a match. -/
def passes_exclude (s : Settings) (title : String) : Bool :=
  match s.regex_exclude with
  | some p => !p title
  | none => true

/-- The condition step of `run_once` as a pass predicate: the listing
is skipped iff a non-empty condition string is unacceptable (absent or
empty condition passes through). -/
def passes_condition (l : Listing) : Bool :=
  let cond := l.condition.getD ""
  cond == "" || condition_acceptable cond

/-- One row of the `seen` table: (marketplace, listing_id, seen_at). -/
abbrev Row := String × String × String

/-- The `seen` table as a bag of rows. -/
abbrev Store := List Row

/-- `SeenStore.has_seen`: a row with this primary key exists. -/
def has_seen (db : Store) (marketplace listing_id : String) : Bool :=
  db.any fun r => r.1 == marketplace && r.2.1 == listing_id

/-- `SeenStore.mark_seen`: `INSERT OR REPLACE` keyed by the primary key
(marketplace, listing_id) — any conflicting row is replaced by the new
one.  Row order inside the table is irrelevant to every query made
against it. -/
def mark_seen (db : Store) (marketplace listing_id seen_at : String) :
    Store :=
  (db.filter fun r => !(r.1 == marketplace && r.2.1 == listing_id))
    ++ [(marketplace, listing_id, seen_at)]

/-- Number of durable rows stored for one (marketplace, listing_id)
key. -/
def seen_rows (db : Store) (marketplace listing_id : String) : Nat :=
  (db.filter fun r => r.1 == marketplace && r.2.1 == listing_id).length

/-- A sequence of `mark_seen` calls applied in order. -/
def apply_marks : Store → List (String × String × String) → Store
  | db, [] => db
  | db, (m, i, t) :: rest => apply_marks (mark_seen db m i t) rest

/-- The body of the per-listing loop of `worker.run_once` for one
listing: the updated store, the number of `Notifier.send` calls and the
number of `SeenStore.mark_seen` calls made for this listing — or the
uncaught exception.  `send_result` is the boolean the notifier
collaborator returns; in the source it only drives logging. -/
def process_listing (st : Store) (s : Settings) (l : Listing)
    (send_result : Bool) (ts : String) :
    Except PyError (Store × Nat × Nat) :=
  if l.listing_id = "" then Except.ok (st, 0, 0)
  else if has_seen st l.marketplace l.listing_id then Except.ok (st, 0, 0)
  else if !passes_include s l.title then Except.ok (st, 0, 0)
  else if !passes_exclude s l.title then Except.ok (st, 0, 0)
  else if !passes_condition l then Except.ok (st, 0, 0)
  else
    match compute_profit l s with
    | Except.error e => Except.error e
    | Except.ok bd =>
      if bd.profit < s.PROFIT_MIN ∨ bd.margin_percent < s.MARGIN_MIN_PERCENT then
        Except.ok (mark_seen st l.marketplace l.listing_id ts, 0, 1)
      else
        Except.ok (mark_seen st l.marketplace l.listing_id ts, 1, 1)

/-- The listing loop of `run_once` over one fetcher's result list: an
uncaught exception aborts the whole loop. -/
def process_listings (s : Settings) (b : Bool) (ts : String) :
    Store → List Listing → Except PyError Store
  | st, [] => Except.ok st
  | st, l :: rest =>
    match process_listing st s l b ts with
    | Except.error e => Except.error e
    | Except.ok (st2, _, _) => process_listings s b ts st2 rest

/-- `worker.run_once` over the fetch results of the enabled fetchers:
`none` stands for a fetcher whose `fetch_listings` raised (that
exception is caught: log and continue with the next fetcher); an
exception inside the listing loop is NOT caught and aborts the
remaining cycle. -/
def run_once (s : Settings) (b : Bool) (ts : String) :
    Store → List (Option (List Listing)) → Except PyError Store
  | st, [] => Except.ok st
  | st, none :: rest => run_once s b ts st rest
  | st, some listings :: rest =>
    match process_listings s b ts st listings with
    | Except.error e => Except.error e
    | Except.ok st2 => run_once s b ts st2 rest

/-- The worked example listing: price 100, declared shipping 5. -/
def example_listing : Listing :=
  ⟨"ebay", "123", "Cobra King LTDx Driver", some "Cobra",
    some "King LTDx", some "excellent", some (some 100), some 5⟩

/-- Settings of the worked example: strategy C, thresholds 10 / 20, no
regexes, no shipping table. -/
def example_settings : Settings := ⟨10, 20, "C", none, none, none⟩

/-- `py_upper` fixes the literal strategy letters. -/
theorem py_upper_C : py_upper "C" = "C" := by decide

set_option maxHeartbeats 1000000 in
/-- Helper: full evaluation of `compute_profit` on the worked
example. -/
theorem compute_profit_example :
    compute_profit example_listing example_settings =
      Except.ok ⟨100, 5, 5, 110, 150, 40, 3636 / 100⟩ := by
  have hest : estimate_resale_value example_listing example_settings =
      Except.ok (some 150) := by
    simp +decide [estimate_resale_value, example_listing,
      example_settings, py_upper_C]
    norm_num [round2, Rat.floor]
  have hsc : lookup_shipping_cost example_listing example_settings =
      some 5 := by
    simp [lookup_shipping_cost, example_listing, example_settings]
    norm_num [round2, Rat.floor]
  have h0 : compute_profit example_listing example_settings =
      compute_profit_body example_listing example_settings 100 := rfl
  rw [h0]
  simp only [compute_profit_body, hest, hsc]
  norm_num [compute_buyer_protection_cost, round2, Rat.floor]

/-- C6: for a listing with price 100 and declared shipping cost 5 under
valuation strategy C, `compute_profit` returns product 100.00, buyer
protection 5.00, shipping 5.00, total 110.00, resale 150.00, profit
40.00 and margin 36.36. -/
theorem C6_worked_example :
    compute_profit example_listing example_settings =
      Except.ok ⟨100, 5, 5, 110, 150, 40, 3636 / 100⟩ :=
  compute_profit_example

/-- Helper: marking one key does not change `has_seen` for a different
key. -/
theorem has_seen_mark_seen_ne (db : Store) (m i m2 i2 ts : String)
    (h : ¬(m = m2 ∧ i = i2)) :
    has_seen (mark_seen db m i ts) m2 i2 = has_seen db m2 i2 := by
  rw [Bool.eq_iff_iff]
  simp only [has_seen, mark_seen, List.any_eq_true, List.mem_append,
    List.mem_filter, List.mem_singleton, Bool.and_eq_true, beq_iff_eq,
    Bool.not_eq_true']
  constructor
  · rintro ⟨r, hr, hm2, hi2⟩
    rcases hr with ⟨hrdb, _⟩ | rfl
    · exact ⟨r, hrdb, hm2, hi2⟩
    · exact absurd ⟨hm2, hi2⟩ h
  · rintro ⟨r, hrdb, hm2, hi2⟩
    refine ⟨r, Or.inl ⟨hrdb, ?_⟩, hm2, hi2⟩
    simp only [Bool.and_eq_false_iff, beq_eq_false_iff_ne, ne_eq]
    by_cases hm : r.1 = m
    · right
      intro hi
      exact h ⟨hm ▸ hm2.symm ▸ rfl, hi ▸ hi2.symm ▸ rfl⟩
    · left
      exact hm

/-- Helper: one `mark_seen` leaves exactly one row for its key,
whatever the prior table contents. -/
theorem seen_rows_mark_seen (db : Store) (m i ts : String) :
    seen_rows (mark_seen db m i ts) m i = 1 := by
  simp [seen_rows, mark_seen, List.filter_append, List.filter_filter]

/-- Helper: `has_seen` is true immediately after `mark_seen` for the
same key. -/
theorem has_seen_mark_seen_self (db : Store) (m i ts : String) :
    has_seen (mark_seen db m i ts) m i = true := by
  simp [has_seen, mark_seen]

/-- Helper: a sequence of `mark_seen` calls that never touches a key
leaves that key unseen. -/
theorem has_seen_apply_marks_of_not_mem
    (ops : List (String × String × String)) (m i : String)
    (hops : ∀ o ∈ ops, ¬(o.1 = m ∧ o.2.1 = i)) (db : Store)
    (hdb : has_seen db m i = false) :
    has_seen (apply_marks db ops) m i = false := by
  induction ops generalizing db with
  | nil => simpa [apply_marks] using hdb
  | cons o rest ih =>
    obtain ⟨om, oi, ot⟩ := o
    simp only [apply_marks]
    refine ih (fun o ho => hops o (List.mem_cons_of_mem _ ho)) _ ?_
    rw [has_seen_mark_seen_ne db om oi m i ot
      (hops (om, oi, ot) (List.mem_cons_self _ _))]
    exact hdb

/-- C8: `has_seen` is false for a key before any `mark_seen` for that
key (starting from the fresh, empty table and marking only other
keys), true immediately after one, and two `mark_seen` calls with the
same key leave exactly one durable row for it. -/
theorem C8_seen_store_contract (m i ts ts2 : String) (db : Store)
    (ops : List (String × String × String))
    (hops : ∀ o ∈ ops, ¬(o.1 = m ∧ o.2.1 = i)) :
    has_seen (apply_marks [] ops) m i = false
    ∧ has_seen (mark_seen db m i ts) m i = true
    ∧ seen_rows (mark_seen (mark_seen db m i ts) m i ts2) m i = 1 :=
  ⟨has_seen_apply_marks_of_not_mem ops m i hops [] rfl,
   has_seen_mark_seen_self db m i ts,
   seen_rows_mark_seen _ m i ts2⟩

/-- Witness for C8 at concrete inputs. -/
theorem C8_seen_store_contract_witness :
    has_seen (apply_marks [] [("vinted", "7", "t1")]) "ebay" "42" = false
    ∧ has_seen (mark_seen [("vinted", "7", "t1")] "ebay" "42" "t2")
        "ebay" "42" = true
    ∧ seen_rows (mark_seen (mark_seen [("vinted", "7", "t1")]
        "ebay" "42" "t2") "ebay" "42" "t3") "ebay" "42" = 1 :=
  C8_seen_store_contract "ebay" "42" "t2" "t3" [("vinted", "7", "t1")]
    [("vinted", "7", "t1")] (by decide)

/-- C10: marking one (marketplace, listing_id) key seen never changes
the seen status of any other key. -/
theorem C10_mark_seen_frame (db : Store) (m1 i1 m2 i2 ts : String)
    (h : ¬(m1 = m2 ∧ i1 = i2)) :
    has_seen (mark_seen db m1 i1 ts) m2 i2 = has_seen db m2 i2 :=
  has_seen_mark_seen_ne db m1 i1 m2 i2 ts h

/-- Witness for C10 at concrete inputs. -/
theorem C10_mark_seen_frame_witness :
    has_seen (mark_seen [("ebay", "7", "t0")] "ebay" "42" "t1")
      "vinted" "42" = has_seen [("ebay", "7", "t0")] "vinted" "42" :=
  C10_mark_seen_frame [("ebay", "7", "t0")] "ebay" "42" "vinted" "42"
    "t1" (by decide)

/-- `round2` fixes 0. -/
theorem round2_zero : round2 0 = 0 := by norm_num [round2, Rat.floor]

/-- A listing whose price key is present but null — exactly the shape
`EbayFetcher._simplify_item` and `VintedFetcher._simplify_item` emit
for an item without usable price information. -/
def null_price_listing : Listing :=
  ⟨"ebay", "42", "Mystery wedge", none, none, none, some none, none⟩

/-- A listing whose price key is entirely absent from the dict. -/
def absent_price_listing : Listing :=
  ⟨"ebay", "43", "Mystery wedge", none, none, none, none, none⟩

/-- C3 (code bug): a present-but-null price makes `compute_profit`
raise `TypeError` (`float(None)`) instead of being treated as 0.0;
only a fully absent price key gets the 0.0 default and the promised
unprofitable all-zero outcome. -/
theorem C3_null_price_type_error :
    compute_profit null_price_listing example_settings =
      Except.error PyError.typeError
    ∧ compute_profit absent_price_listing example_settings =
      Except.ok ⟨0, 0, 0, 0, 0, 0, 0⟩ := by
  constructor
  · rfl
  · have h0 : compute_profit absent_price_listing example_settings =
        compute_profit_body absent_price_listing example_settings 0 := rfl
    have hest : estimate_resale_value absent_price_listing
        example_settings = Except.ok none := rfl
    have hsc : lookup_shipping_cost absent_price_listing
        example_settings = none := rfl
    rw [h0]
    simp only [compute_profit_body, hest, hsc]
    norm_num [compute_buyer_protection_cost, round2, Rat.floor]

/-- C7: whenever the resale value is unresolved and `compute_profit`
returns a breakdown at all, that breakdown's profit and margin_percent
are 0, regardless of the computed costs. -/
theorem C7_unresolved_resale_zero (l : Listing) (s : Settings)
    (bd : CostBreakdown)
    (hres : estimate_resale_value l s = Except.ok none)
    (hok : compute_profit l s = Except.ok bd) :
    bd.profit = 0 ∧ bd.margin_percent = 0 := by
  cases hp : l.price with
  | none =>
    simp only [compute_profit, hp, compute_profit_body, hres] at hok
    rw [Except.ok.injEq] at hok
    rw [← hok]
    simp [round2_zero]
  | some po =>
    cases po with
    | none => simp [compute_profit, hp] at hok
    | some p =>
      simp only [compute_profit, hp, compute_profit_body, hres] at hok
      rw [Except.ok.injEq] at hok
      rw [← hok]
      simp [round2_zero]

/-- A strategy-B listing with no static-table match. -/
def unmatched_listing : Listing :=
  ⟨"ebay", "77", "Odyssey White Hot", some "Odyssey", some "White Hot",
    none, some (some 80), none⟩

/-- Settings selecting strategy B. -/
def strategy_b_settings : Settings := ⟨10, 20, "B", none, none, none⟩

/-- Strategy B finds no table entry for the Odyssey listing. -/
theorem estimate_unmatched :
    estimate_resale_value unmatched_listing strategy_b_settings =
      Except.ok none := by
  have hb : py_upper "B" = "B" := by decide
  simp +decide [estimate_resale_value, unmatched_listing,
    strategy_b_settings, hb, static_prices]

/-- The full breakdown of the unmatched strategy-B listing. -/
theorem compute_profit_unmatched :
    compute_profit unmatched_listing strategy_b_settings =
      Except.ok ⟨80, 4, 0, 84, 0, 0, 0⟩ := by
  have h0 : compute_profit unmatched_listing strategy_b_settings =
      compute_profit_body unmatched_listing strategy_b_settings 80 := rfl
  have hsc : lookup_shipping_cost unmatched_listing
      strategy_b_settings = none := rfl
  rw [h0]
  simp only [compute_profit_body, estimate_unmatched, hsc]
  norm_num [compute_buyer_protection_cost, round2, Rat.floor]

/-- Witness for C7 at the concrete strategy-B listing with no table
match: costs are 80 + 4 = 84, yet profit and margin are forced to 0. -/
theorem C7_unresolved_resale_zero_witness :
    (⟨80, 4, 0, 84, 0, 0, 0⟩ : CostBreakdown).profit = 0
    ∧ (⟨80, 4, 0, 84, 0, 0, 0⟩ : CostBreakdown).margin_percent = 0 :=
  C7_unresolved_resale_zero unmatched_listing strategy_b_settings
    ⟨80, 4, 0, 84, 0, 0, 0⟩ estimate_unmatched compute_profit_unmatched

/-- C9: the strategy selector is matched case-insensitively — on a
listing with a present price the behaviour of `estimate_resale_value`
is fixed by the UPPERCASED strategy string (strategy A, B or C
behaviour when it uppercases to "A", "B" or "C"), and it raises
exactly when the uppercased strategy is none of the three. -/
theorem C9_strategy_case_insensitive (l : Listing) (s : Settings)
    (p : ℚ) (hprice : l.price = some (some p)) :
    (py_upper s.VALUATION_STRATEGY = "A" →
      estimate_resale_value l s =
        Except.ok (some (round2 (p * (3 / 2)))))
    ∧ (py_upper s.VALUATION_STRATEGY = "B" →
      estimate_resale_value l s = Except.ok (static_prices
        (py_lower (l.brand.getD "") ++ "|" ++ py_lower (l.model.getD ""))))
    ∧ (py_upper s.VALUATION_STRATEGY = "C" →
      estimate_resale_value l s =
        Except.ok (some (round2 (p * (3 / 2)))))
    ∧ (∀ e, estimate_resale_value l s = Except.error e →
      py_upper s.VALUATION_STRATEGY ≠ "A"
      ∧ py_upper s.VALUATION_STRATEGY ≠ "B"
      ∧ py_upper s.VALUATION_STRATEGY ≠ "C") := by
  refine ⟨fun h => ?_, fun h => ?_, fun h => ?_, fun e he => ?_⟩
  · simp [estimate_resale_value, hprice, h]
  · simp +decide [estimate_resale_value, hprice, h]
  · simp +decide [estimate_resale_value, hprice, h]
  · refine ⟨?_, ?_, ?_⟩ <;> intro h <;>
      simp +decide [estimate_resale_value, hprice, h] at he

/-- Settings whose strategy is the lowercase letter "c". -/
def lowercase_c_settings : Settings := ⟨10, 20, "c", none, none, none⟩

/-- Witness for C9 at the lowercase strategy "c" and the worked
example listing (price 100). -/
theorem C9_strategy_case_insensitive_witness :
    (py_upper lowercase_c_settings.VALUATION_STRATEGY = "A" →
      estimate_resale_value example_listing lowercase_c_settings =
        Except.ok (some (round2 (100 * (3 / 2)))))
    ∧ (py_upper lowercase_c_settings.VALUATION_STRATEGY = "B" →
      estimate_resale_value example_listing lowercase_c_settings =
        Except.ok (static_prices
          (py_lower (example_listing.brand.getD "") ++ "|"
            ++ py_lower (example_listing.model.getD ""))))
    ∧ (py_upper lowercase_c_settings.VALUATION_STRATEGY = "C" →
      estimate_resale_value example_listing lowercase_c_settings =
        Except.ok (some (round2 (100 * (3 / 2)))))
    ∧ (∀ e, estimate_resale_value example_listing lowercase_c_settings =
        Except.error e →
      py_upper lowercase_c_settings.VALUATION_STRATEGY ≠ "A"
      ∧ py_upper lowercase_c_settings.VALUATION_STRATEGY ≠ "B"
      ∧ py_upper lowercase_c_settings.VALUATION_STRATEGY ≠ "C") :=
  C9_strategy_case_insensitive example_listing lowercase_c_settings
    100 rfl

/-- C1: a listing that passes dedup and every filter and whose
breakdown meets both thresholds is processed with exactly one
`Notifier.send` call and exactly one `mark_seen` call for its
(marketplace, listing_id) key — whatever boolean the send returns,
in particular when it reports failure. -/
theorem C1_notify_once_mark_once (st : Store) (s : Settings)
    (l : Listing) (b : Bool) (ts : String) (bd : CostBreakdown)
    (hid : l.listing_id ≠ "")
    (hseen : has_seen st l.marketplace l.listing_id = false)
    (hinc : passes_include s l.title = true)
    (hexc : passes_exclude s l.title = true)
    (hcond : passes_condition l = true)
    (hbd : compute_profit l s = Except.ok bd)
    (hp : s.PROFIT_MIN ≤ bd.profit)
    (hm : s.MARGIN_MIN_PERCENT ≤ bd.margin_percent) :
    process_listing st s l b ts =
      Except.ok (mark_seen st l.marketplace l.listing_id ts, 1, 1) := by
  have h1 : ¬ bd.profit < s.PROFIT_MIN := not_lt.mpr hp
  have h2 : ¬ bd.margin_percent < s.MARGIN_MIN_PERCENT := not_lt.mpr hm
  simp [process_listing, hid, hseen, hinc, hexc, hcond, hbd, h1, h2]

/-- Witness for C1: the worked example listing meets both thresholds
(profit 40 ≥ 10, margin 36.36 ≥ 20); processed from the fresh store
with a FAILING send, it yields one send call and one mark_seen. -/
theorem C1_notify_once_mark_once_witness :
    process_listing [] example_settings example_listing false "t0" =
      Except.ok (mark_seen [] example_listing.marketplace
        example_listing.listing_id "t0", 1, 1) :=
  C1_notify_once_mark_once [] example_settings example_listing false
    "t0" ⟨100, 5, 5, 110, 150, 40, 3636 / 100⟩ (by decide) rfl rfl rfl
    (by decide) compute_profit_example
    (by norm_num [example_settings]) (by norm_num [example_settings])

/-- Settings whose include regex never matches any title. -/
def include_never_settings : Settings :=
  ⟨10, 20, "C", none, some (fun _ => false), none⟩

/-- C2 counterexample: this listing is NOT rejected at the dedup step
(the store is fresh), its processing does not error, it is rejected by
the include-regex filter — and the orchestrator does NOT mark it seen:
the store comes back unchanged with zero mark_seen calls, refuting the
claim that filters other than dedup do not prevent marking seen. -/
theorem C2_filter_skip_not_marked_seen :
    has_seen [] example_listing.marketplace example_listing.listing_id
      = false
    ∧ process_listing [] include_never_settings example_listing true
        "t0" = Except.ok ([], 0, 0) :=
  ⟨rfl, by simp [process_listing, include_never_settings, passes_include]⟩

/-- C2 (amended): a listing that is not rejected at the dedup step,
passes the include-regex, exclude-regex and condition filters, and
whose valuation does not error is always marked seen — exactly one
mark_seen call on both the suppressed and the notified path. -/
theorem C2_nonrejected_marked_seen (st : Store) (s : Settings)
    (l : Listing) (b : Bool) (ts : String) (bd : CostBreakdown)
    (hid : l.listing_id ≠ "")
    (hseen : has_seen st l.marketplace l.listing_id = false)
    (hinc : passes_include s l.title = true)
    (hexc : passes_exclude s l.title = true)
    (hcond : passes_condition l = true)
    (hbd : compute_profit l s = Except.ok bd) :
    process_listing st s l b ts =
      Except.ok (mark_seen st l.marketplace l.listing_id ts,
        (if bd.profit < s.PROFIT_MIN
          ∨ bd.margin_percent < s.MARGIN_MIN_PERCENT then 0 else 1),
        1) := by
  by_cases hlow : bd.profit < s.PROFIT_MIN
    ∨ bd.margin_percent < s.MARGIN_MIN_PERCENT
  · simp [process_listing, hid, hseen, hinc, hexc, hcond, hbd, hlow]
  · simp [process_listing, hid, hseen, hinc, hexc, hcond, hbd, hlow]

/-- Witness for the amended C2 at the suppressed strategy-B listing. -/
theorem C2_nonrejected_marked_seen_witness :
    process_listing [] strategy_b_settings unmatched_listing false "t1"
      = Except.ok (mark_seen [] unmatched_listing.marketplace
          unmatched_listing.listing_id "t1",
        (if (⟨80, 4, 0, 84, 0, 0, 0⟩ : CostBreakdown).profit <
            strategy_b_settings.PROFIT_MIN
          ∨ (⟨80, 4, 0, 84, 0, 0, 0⟩ : CostBreakdown).margin_percent <
            strategy_b_settings.MARGIN_MIN_PERCENT then 0 else 1),
        1) :=
  C2_nonrejected_marked_seen [] strategy_b_settings unmatched_listing
    false "t1" ⟨80, 4, 0, 84, 0, 0, 0⟩ (by decide) rfl rfl rfl rfl
    compute_profit_unmatched

/-- C5: a listing whose profit is below profit_min or whose margin is
below margin_min_percent is marked seen with zero `Notifier.send`
calls. -/
theorem C5_suppressed_never_notified (st : Store) (s : Settings)
    (l : Listing) (b : Bool) (ts : String) (bd : CostBreakdown)
    (hid : l.listing_id ≠ "")
    (hseen : has_seen st l.marketplace l.listing_id = false)
    (hinc : passes_include s l.title = true)
    (hexc : passes_exclude s l.title = true)
    (hcond : passes_condition l = true)
    (hbd : compute_profit l s = Except.ok bd)
    (hlow : bd.profit < s.PROFIT_MIN
      ∨ bd.margin_percent < s.MARGIN_MIN_PERCENT) :
    process_listing st s l b ts =
      Except.ok (mark_seen st l.marketplace l.listing_id ts, 0, 1) := by
  simp [process_listing, hid, hseen, hinc, hexc, hcond, hbd, hlow]

/-- Witness for C5: the unmatched strategy-B listing has profit 0 < 10,
so it is marked seen and the notifier is never invoked. -/
theorem C5_suppressed_never_notified_witness :
    process_listing [] strategy_b_settings unmatched_listing true "t0"
      = Except.ok (mark_seen [] unmatched_listing.marketplace
          unmatched_listing.listing_id "t0", 0, 1) :=
  C5_suppressed_never_notified [] strategy_b_settings unmatched_listing
    true "t0" ⟨80, 4, 0, 84, 0, 0, 0⟩ (by decide) rfl rfl rfl rfl
    compute_profit_unmatched (Or.inl (by norm_num [strategy_b_settings]))

/-- Settings with an unrecognized valuation strategy. -/
def bad_strategy_settings : Settings :=
  ⟨10, 20, "median", none, none, none⟩

/-- C4: under an unrecognized valuation strategy, valuating a
filtered-in listing with a present price raises `ValueError`, and that
exception aborts the whole remaining cycle of `run_once` — the
remaining listings of the current fetcher and all remaining fetchers
are never processed; it is not downgraded to a per-listing or
per-fetcher skip. -/
theorem C4_unknown_strategy_aborts_cycle (st : Store) (s : Settings)
    (l : Listing) (b : Bool) (ts : String) (p : ℚ)
    (rest : List Listing) (more : List (Option (List Listing)))
    (hA : py_upper s.VALUATION_STRATEGY ≠ "A")
    (hB : py_upper s.VALUATION_STRATEGY ≠ "B")
    (hC : py_upper s.VALUATION_STRATEGY ≠ "C")
    (hid : l.listing_id ≠ "")
    (hseen : has_seen st l.marketplace l.listing_id = false)
    (hinc : passes_include s l.title = true)
    (hexc : passes_exclude s l.title = true)
    (hcond : passes_condition l = true)
    (hprice : l.price = some (some p)) :
    process_listing st s l b ts = Except.error (PyError.valueError
      ("Unknown valuation strategy: " ++ py_upper s.VALUATION_STRATEGY))
    ∧ run_once s b ts st (some (l :: rest) :: more) =
      Except.error (PyError.valueError
      ("Unknown valuation strategy: "
        ++ py_upper s.VALUATION_STRATEGY)) := by
  have hest : estimate_resale_value l s = Except.error
      (PyError.valueError ("Unknown valuation strategy: "
        ++ py_upper s.VALUATION_STRATEGY)) := by
    simp [estimate_resale_value, hprice, hA, hB, hC]
  have hcp : compute_profit l s = Except.error
      (PyError.valueError ("Unknown valuation strategy: "
        ++ py_upper s.VALUATION_STRATEGY)) := by
    simp only [compute_profit, hprice, compute_profit_body, hest]
  have hpl : process_listing st s l b ts = Except.error
      (PyError.valueError ("Unknown valuation strategy: "
        ++ py_upper s.VALUATION_STRATEGY)) := by
    simp [process_listing, hid, hseen, hinc, hexc, hcond, hcp]
  exact ⟨hpl, by simp [run_once, process_listings, hpl]⟩

/-- Witness for C4: strategy "median" on the worked example listing
raises, and a cycle with a further listing and two further fetchers
stops with that exception. -/
theorem C4_unknown_strategy_aborts_cycle_witness :
    process_listing [] bad_strategy_settings example_listing true "t0"
      = Except.error (PyError.valueError
        ("Unknown valuation strategy: "
          ++ py_upper bad_strategy_settings.VALUATION_STRATEGY))
    ∧ run_once bad_strategy_settings true "t0" []
        (some (example_listing :: [unmatched_listing])
          :: [none, some [unmatched_listing]]) =
      Except.error (PyError.valueError
        ("Unknown valuation strategy: "
          ++ py_upper bad_strategy_settings.VALUATION_STRATEGY)) :=
  C4_unknown_strategy_aborts_cycle [] bad_strategy_settings
    example_listing true "t0" 100 [unmatched_listing]
    [none, some [unmatched_listing]] (by decide) (by decide) (by decide)
    (by decide) rfl rfl rfl (by decide) rfl

end GolfFlips
